import Mathlib

set_option maxRecDepth 16000

/-!
# Verification of `desktop-app/src/shared/indicators.py`

A shallow embedding of the `Indicator` class of
`src/desktop-app/src/shared/indicators.py`, together with theorems settling
the specification claims about it.

Modelling conventions:

* External collaborators (tkinter, selenium, the login collaborator, the
  logger, the file system) are modelled by an `Env` record holding the
  responses the outside world gives during one run of `add_indicator`, and
  by a trace of `Effect`s that the code emits towards the outside world.
* Every method of the class becomes a pure function from `Env` (plus its
  explicit arguments) to its Python return value paired with the list of
  effects it performs, in order.
* The persisted indicator list file is carried as the parsed JSON array of
  records it contains (`List Record`); `update_json_list` threads it.
* Python's `json.dump(obj, indent=4)` / `json.load` on such arrays are
  modelled character-exactly by `py_json_dump_records` / `py_json_load_records`
  below.
-/

/-- An indicator record, the object `add_indicator` builds:
`{"name": pine_name, "url": url, "id": pine_id}`.  The dict is typed
`dict[str, str | None]` in the source, but it is only built under the
`valid_pine_info` guard, which ensures `name` and `id` are non-`None`
strings; `url` is always a `str`. -/
structure Record where
  name : String
  url : String
  id : String
deriving DecidableEq

/-- The cookie dict built in `create_browser`:
`{"name": ..., "value": ..., "domain": ..., "path": ...}`. -/
structure Cookie where
  name : String
  value : String
  domain : String
  path : String
deriving DecidableEq

/-- An opaque handle standing for a live selenium `WebDriver`. -/
structure WebDriver where
  handle : Nat
deriving DecidableEq

/-- Observable actions the code performs on its external collaborators, in
program order. -/
inductive Effect where
  /-- Records that `tradingview_login.create_selenium_webdriver(headless=...)` was called. -/
  | createWebdriverCall (headless : Bool)
  /-- Records that `messagebox.showerror(title=..., message=...)` was called. -/
  | showError (title : String) (message : String)
  /-- Records that `web_driver.get(url=...)` was called. -/
  | navigate (url : String)
  /-- Records that `web_driver.add_cookie(cookie_dict=...)` was called. -/
  | addCookie (cookie : Cookie)
  /-- Records that `logger.error(...)` was called. -/
  | logError (message : String)
  /-- Records that `INDICATORS_FILE` was opened for reading and `json.load`ed. -/
  | readListFile
  /-- Records that `INDICATORS_FILE` was opened for writing and the given array was
  `json.dump`ed into it. -/
  | writeListFile (contents : List Record)
deriving DecidableEq

/-- The responses of the external world during one run. -/
structure Env where
  /-- Final value of the `entered_url` `StringVar` when the dialog closes:
  the entry text if OK was pressed, `""` otherwise (a `StringVar` starts
  out as the empty string). -/
  enteredText : String
  /-- Result of `tradingview_login.create_selenium_webdriver(headless=True)`. -/
  webdriverResult : Option WebDriver
  /-- Result of `tradingview_login.read_saved_session_id()`. -/
  savedSessionId : Option String
  /-- Outcome of the 5-second wait for the `PINE_NAME_SELECTOR` element:
  `some t` if it became clickable with `element.text = t`, `none` if the
  wait raised `TimeoutException`. -/
  nameElementText : Option String
  /-- Outcome of the 5-second wait for the `PINE_ID_SELECTOR` element:
  `some a` if it became clickable with
  `element.get_attribute("data-script-id-part") = a` (an attribute read
  may itself yield `None`), `none` if the wait raised `TimeoutException`. -/
  idElementAttr : Option (Option String)
deriving DecidableEq

/-- A selenium `TimeoutException`. -/
inductive ScrapeExn where
  | timeout
deriving DecidableEq

/-- Python truthiness of a `str | None` value, as used by `if session_id:`:
`None` and `""` are falsy, every other string is truthy. -/
def pyTruthyStr : Option String → Bool
  | none => false
  | some s => s ≠ ""

/-- Model of `Indicator.ask_for_url`: builds the modal dialog, blocks until it is
destroyed, and returns `entered_url.get()` — always a `str` (the entry text
if OK was pressed, else the `StringVar`'s initial `""`).  The result is
wrapped in `Option` so that the dynamically-typed `url is None` test in
`add_indicator` is representable; the function itself never produces
`none`. -/
def ask_for_url (env : Env) : Option String :=
  some env.enteredText

/-- Model of `Indicator.update_json_list`: opens `INDICATORS_FILE`, `json.load`s the
array, appends `new_entry`, and `json.dump`s the whole array back with
`indent=4`.  Returns the new file contents and the file effects. -/
def update_json_list (data : List Record) (new_entry : Record) :
    List Record × List Effect :=
  (data ++ [new_entry], [Effect.readListFile, Effect.writeListFile (data ++ [new_entry])])

/-- The bounded wait inside `get_pine_name`:
`WebDriverWait(web_driver, 5).until(element_to_be_clickable(PINE_NAME_SELECTOR)).text`,
which either returns the element text or raises `TimeoutException`. -/
def wait_pine_name (env : Env) : Except ScrapeExn String :=
  match env.nameElementText with
  | some t => Except.ok t
  | none => Except.error ScrapeExn.timeout

/-- The bounded wait inside `get_pine_id`:
`WebDriverWait(web_driver, 5).until(element_to_be_clickable(PINE_ID_SELECTOR))
.get_attribute("data-script-id-part")`, which either returns the attribute
value (possibly `None`) or raises `TimeoutException`. -/
def wait_pine_id (env : Env) : Except ScrapeExn (Option String) :=
  match env.idElementAttr with
  | some a => Except.ok a
  | none => Except.error ScrapeExn.timeout

/-- The inner `get_pine_name` of `Indicator.get_pine_info`: the wait wrapped
in `try/except TimeoutException`, returning `None` and logging an error on
timeout. -/
def get_pine_name (env : Env) : Option String × List Effect :=
  match wait_pine_name env with
  | Except.ok t => (some t, [])
  | Except.error _ => (none, [Effect.logError "Unable to find pine name"])

/-- The inner `get_pine_id` of `Indicator.get_pine_info`: the wait wrapped
in `try/except TimeoutException`, returning `None` and logging an error on
timeout. -/
def get_pine_id (env : Env) : Option String × List Effect :=
  match wait_pine_id env with
  | Except.ok a => (a, [])
  | Except.error _ => (none, [Effect.logError "Unable to find pine ID"])

/-- Model of `Indicator.get_pine_info`: navigates to `url`, then runs the two
independent bounded waits in sequence, and returns the
`(pine_name, pine_id)` pair. -/
def get_pine_info (env : Env) (url : String) : (Option String × Option String) × List Effect :=
  let n := get_pine_name env
  let i := get_pine_id env
  ((n.1, i.1), Effect.navigate url :: (n.2 ++ i.2))

/-- Model of `Indicator.create_browser`: delegates creation to
`tradingview_login.create_selenium_webdriver(headless=True)`; on failure
shows the modal error box and returns `None`; on success reads the saved
session id, navigates to the fixed published-scripts URL, attaches the
`sessionid` cookie when the saved id is truthy, and returns the driver. -/
def create_browser (env : Env) : Option WebDriver × List Effect :=
  match env.webdriverResult with
  | none =>
      (none,
        [Effect.createWebdriverCall true,
         Effect.showError "ERROR"
           "ERROR: Unable to create Chrome Browser. \n\nPlease make sure that you have Google Chrome installed."])
  | some web_driver =>
      let cookieEffects :=
        if pyTruthyStr env.savedSessionId then
          [Effect.addCookie
            { name := "sessionid", value := env.savedSessionId.getD "",
              domain := ".tradingview.com", path := "/" }]
        else []
      (some web_driver,
        Effect.createWebdriverCall true
          :: Effect.navigate "https://www.tradingview.com/u/#published-scripts"
          :: cookieEffects)

/-- Python's `url.startswith(pre)`: character-level prefix test. -/
def py_startswith (s pre : String) : Bool :=
  pre.data.isPrefixOf s.data

/-- The body of `Indicator.add_indicator` once `url` is bound (everything
after the `if url is None` check), threading the list-file contents. -/
def add_indicator_with_url (env : Env) (file : List Record) (url : String) :
    List Record × List Effect :=
  match create_browser env with
  | (none, effs) => (file, effs)
  | (some _, effs) =>
      let valid_url : Bool := py_startswith url "https://www.tradingview.com/script"
      if valid_url then
        let r := get_pine_info env url
        let pine_name := r.1.1
        let pine_id := r.1.2
        let valid_pine_info : Bool :=
          pine_name ≠ none ∧ pine_id ≠ none ∧ pine_name ≠ some "" ∧ pine_id ≠ some ""
        if valid_pine_info then
          let new_entry : Record :=
            { name := pine_name.getD "", url := url, id := pine_id.getD "" }
          let u := update_json_list file new_entry
          (u.1, effs ++ r.2 ++ u.2)
        else (file, effs ++ r.2)
      else (file, effs)

/-- Model of `Indicator.add_indicator`: ask for the URL, return early if it is
`None`, create the browser, return early if that failed, validate the URL
shape, scrape, and append when both scraped fields are non-empty. -/
def add_indicator (env : Env) (file : List Record) : List Record × List Effect :=
  match ask_for_url env with
  | none => (file, [])
  | some url => add_indicator_with_url env file url

/-! ## The on-disk JSON text

`update_json_list` persists the array with `json.dump(obj=data, fp=file,
indent=4)` and reads it back with `json.load(fp=file)`.  The two functions
below model that pair of Python standard-library calls character-exactly,
restricted to the array-of-records documents that `update_json_list`
maintains in `INDICATORS_FILE`. -/

/-- The opening brace character `U+007B`. -/
def obraceChar : Char := Char.ofNat 123

/-- The closing brace character `U+007D`. -/
def cbraceChar : Char := Char.ofNat 125

/-- Lowercase hexadecimal digit for `n < 16`, as produced by Python's
`"\\u%04x"` formatting. -/
def hexDigitChar (n : Nat) : Char :=
  if n < 10 then Char.ofNat (48 + n) else Char.ofNat (87 + n)

/-- The four lowercase hex digits of `n % 0x10000`. -/
def hex4 (n : Nat) : List Char :=
  [hexDigitChar (n / 4096 % 16), hexDigitChar (n / 256 % 16),
   hexDigitChar (n / 16 % 16), hexDigitChar (n % 16)]

/-- Python `json`'s `ensure_ascii` escaping of one character
(`py_encode_basestring_ascii`): `"` and `\` get a two-character escape, the
five control shortcuts `\b \f \n \r \t` are used when they apply, every
other character outside `U+0020`–`U+007E` becomes `\uXXXX` (a surrogate
pair for characters beyond `U+FFFF`), and the rest stand for themselves. -/
def pyEscapeChar (c : Char) : List Char :=
  if c = '"' then ['\\', '"']
  else if c = '\\' then ['\\', '\\']
  else if c = '\x08' then ['\\', 'b']
  else if c = '\x0c' then ['\\', 'f']
  else if c = '\n' then ['\\', 'n']
  else if c = '\r' then ['\\', 'r']
  else if c = '\t' then ['\\', 't']
  else if c.toNat < 32 then '\\' :: 'u' :: hex4 c.toNat
  else if c.toNat < 127 then [c]
  else if c.toNat < 65536 then '\\' :: 'u' :: hex4 c.toNat
  else
    '\\' :: 'u' :: hex4 (55296 + (c.toNat - 65536) / 1024)
      ++ '\\' :: 'u' :: hex4 (56320 + (c.toNat - 65536) % 1024)

/-- Application of `pyEscapeChar` to every character of a list. -/
def pyEscapeList : List Char → List Char
  | [] => []
  | c :: cs => pyEscapeChar c ++ pyEscapeList cs

/-- A Python JSON string literal: `"` + escaped contents + `"`. -/
def dumpJsonString (s : String) : List Char :=
  '"' :: (pyEscapeList s.data ++ ['"'])

/-- One array item as `json.dump(..., indent=4)` lays it out at depth 1: the
object's members in dict insertion order `name`, `url`, `id`, keys at
8-space indentation, closing brace at 4-space indentation. -/
def dumpRecordItem (r : Record) : List Char :=
  "\x7b\n        \"name\": ".data ++ dumpJsonString r.name
    ++ ",\n        \"url\": ".data ++ dumpJsonString r.url
    ++ ",\n        \"id\": ".data ++ dumpJsonString r.id
    ++ "\n    \x7d".data

/-- The items after the first, each preceded by the item separator `,\n` and
4-space indentation, then the closing `]` at column 0. -/
def dumpRecordsTail : List Record → List Char
  | [] => "\n]".data
  | r :: rs => ",\n    ".data ++ dumpRecordItem r ++ dumpRecordsTail rs

/-- The character contents `json.dump(obj=data, fp=file, indent=4)` writes
to `INDICATORS_FILE` for an array of records: `[]` for the empty array,
otherwise one item per line block. -/
def py_json_dump_records : List Record → List Char
  | [] => "[]".data
  | r :: rs => "[\n    ".data ++ dumpRecordItem r ++ dumpRecordsTail rs

/-- JSON whitespace, as skipped by Python's `json.decoder` (space, tab,
newline, carriage return). -/
def isJsonWs (c : Char) : Bool :=
  c = ' ' || c = '\t' || c = '\n' || c = '\r'

/-- Drop leading JSON whitespace. -/
def skipWs : List Char → List Char
  | [] => []
  | c :: cs => if isJsonWs c then skipWs cs else c :: cs

/-- Value of one hexadecimal digit, upper or lower case. -/
def hexVal (c : Char) : Option Nat :=
  if 48 ≤ c.toNat ∧ c.toNat ≤ 57 then some (c.toNat - 48)
  else if 97 ≤ c.toNat ∧ c.toNat ≤ 102 then some (c.toNat - 87)
  else if 65 ≤ c.toNat ∧ c.toNat ≤ 70 then some (c.toNat - 55)
  else none

/-- Value of a four-hex-digit group. -/
def hex4Val (h1 h2 h3 h4 : Char) : Option Nat :=
  match hexVal h1, hexVal h2, hexVal h3, hexVal h4 with
  | some a, some b, some c, some d => some (a * 4096 + b * 256 + c * 16 + d)
  | _, _, _, _ => none

/-- The single-character escapes of the JSON grammar. -/
def unescapeSimple (e : Char) : Option Char :=
  if e = '"' then some '"'
  else if e = '\\' then some '\\'
  else if e = '/' then some '/'
  else if e = 'b' then some '\x08'
  else if e = 'f' then some '\x0c'
  else if e = 'n' then some '\n'
  else if e = 'r' then some '\r'
  else if e = 't' then some '\t'
  else none

/-- Decoding of one escape sequence (the part after the backslash), as
`json.decoder` does: the single-character escapes, `\uXXXX` escapes, and a
high-surrogate escape followed by an escaped low surrogate combined into
one character.  (Python tolerates a lone surrogate escape, producing a
non-scalar string; such escapes never occur in `json.dump` output of
actual strings, and the model rejects them.)  Returns the decoded
character and the remaining input. -/
def decodeEscape : List Char → Option (Char × List Char)
  | [] => none
  | e :: rest1 =>
    if e = 'u' then
      match rest1 with
      | h1 :: h2 :: h3 :: h4 :: rest2 =>
        match hex4Val h1 h2 h3 h4 with
        | some n =>
          if 55296 ≤ n ∧ n ≤ 56319 then
            match rest2 with
            | b1 :: b2 :: g1 :: g2 :: g3 :: g4 :: rest3 =>
              if b1 = '\\' ∧ b2 = 'u' then
                match hex4Val g1 g2 g3 g4 with
                | some m =>
                  if 56320 ≤ m ∧ m ≤ 57343 then
                    some (Char.ofNat (65536 + (n - 55296) * 1024 + (m - 56320)), rest3)
                  else none
                | none => none
              else none
            | _ => none
          else if 56320 ≤ n ∧ n ≤ 57343 then none
          else some (Char.ofNat n, rest2)
        | none => none
      | _ => none
    else
      match unescapeSimple e with
      | some d => some (d, rest1)
      | none => none

/-- Scan of a JSON string literal body (after the opening quote) as
`json.decoder.py_scanstring` does in strict mode: literal characters up to
the closing quote, raw control characters rejected, escapes decoded by
`decodeEscape`.  Returns the decoded characters and the input after the
closing quote.  `fuel` bounds the number of decoded characters; callers
supply at least the input length, which always suffices. -/
def parseStringBody : Nat → List Char → Option (List Char × List Char)
  | 0, _ => none
  | _, [] => none
  | fuel + 1, c :: rest =>
    if c = '"' then some ([], rest)
    else if c = '\\' then
      match decodeEscape rest with
      | some dr => (parseStringBody fuel dr.2).map (fun p => (dr.1 :: p.1, p.2))
      | none => none
    else if c.toNat < 32 then none
    else (parseStringBody fuel rest).map (fun p => (c :: p.1, p.2))

/-- A JSON string literal: opening quote then `parseStringBody`, run with
enough fuel for the whole remaining input. -/
def parseJsonString : List Char → Option (String × List Char)
  | [] => none
  | c :: rest =>
    if c = '"' then
      (parseStringBody (rest.length + 1) rest).map (fun p => (String.mk p.1, p.2))
    else none

/-- The member list of a JSON object whose values are strings, starting at
the first key's opening quote (whitespace already skipped), up to and
including the closing brace.  `fuel` bounds the number of members. -/
def parseMembers : Nat → List Char → Option (List (String × String) × List Char)
  | 0, _ => none
  | fuel + 1, input =>
    match parseJsonString input with
    | none => none
    | some (k, rest) =>
      match skipWs rest with
      | [] => none
      | c :: rest2 =>
        if c = ':' then
          match parseJsonString (skipWs rest2) with
          | none => none
          | some (v, rest3) =>
            match skipWs rest3 with
            | [] => none
            | c2 :: rest4 =>
              if c2 = ',' then
                (parseMembers fuel (skipWs rest4)).map (fun p => ((k, v) :: p.1, p.2))
              else if c2 = cbraceChar then some ([(k, v)], rest4)
              else none
        else none

/-- A JSON object with string values: brace, members (possibly none),
closing brace. -/
def parseObject (fuel : Nat) (input : List Char) :
    Option (List (String × String) × List Char) :=
  match input with
  | [] => none
  | c :: rest =>
    if c = obraceChar then
      match skipWs rest with
      | [] => none
      | c2 :: rest2 =>
        if c2 = cbraceChar then some ([], rest2)
        else parseMembers fuel (c2 :: rest2)
    else none

/-- Rebuilding a `Record` from a parsed member list: `json.load` yields the
dict with exactly the keys `name`, `url`, `id` that `json.dump` wrote, in
file order. -/
def recordOfMembers : List (String × String) → Option Record
  | [(k1, n), (k2, u), (k3, i)] =>
    if k1 = "name" ∧ k2 = "url" ∧ k3 = "id" then
      some { name := n, url := u, id := i }
    else none
  | _ => none

/-- The items of a JSON array of record objects, starting at the first
item's opening brace (whitespace already skipped), up to and including the
closing bracket.  `fuel` bounds the number of items. -/
def parseItems : Nat → List Char → Option (List Record × List Char)
  | 0, _ => none
  | fuel + 1, input =>
    match parseObject (fuel + 1) input with
    | none => none
    | some (mem, rest) =>
      match recordOfMembers mem with
      | none => none
      | some r =>
        match skipWs rest with
        | [] => none
        | c :: rest2 =>
          if c = ',' then
            (parseItems fuel (skipWs rest2)).map (fun p => (r :: p.1, p.2))
          else if c = ']' then some ([r], rest2)
          else none

/-- Model of `json.load` on `INDICATORS_FILE`, restricted to the array-of-records
documents `json.dump` writes there: a whole document must be a single array
of record objects followed only by whitespace. -/
def py_json_load_records (input : List Char) : Option (List Record) :=
  match skipWs input with
  | [] => none
  | c :: rest =>
    if c = '[' then
      match skipWs rest with
      | [] => none
      | c2 :: rest2 =>
        if c2 = ']' then
          match skipWs rest2 with
          | [] => some []
          | _ => none
        else
          match parseItems (input.length + 1) (c2 :: rest2) with
          | none => none
          | some (rs, rest3) =>
            match skipWs rest3 with
            | [] => some rs
            | _ => none
    else none

/-! ## Round-trip lemmas for the JSON model -/

theorem skipWs_cons_ws {c : Char} (cs : List Char) (h : isJsonWs c = true) :
    skipWs (c :: cs) = skipWs cs := by
  simp [skipWs, h]

theorem skipWs_cons_not {c : Char} (cs : List Char) (h : isJsonWs c = false) :
    skipWs (c :: cs) = c :: cs := by
  simp [skipWs, h]

@[simp] theorem skipWs_space (cs : List Char) : skipWs (' ' :: cs) = skipWs cs :=
  skipWs_cons_ws cs (by decide)

@[simp] theorem skipWs_newline (cs : List Char) : skipWs ('\n' :: cs) = skipWs cs :=
  skipWs_cons_ws cs (by decide)

@[simp] theorem skipWs_quote (cs : List Char) : skipWs ('"' :: cs) = '"' :: cs :=
  skipWs_cons_not cs (by decide)

@[simp] theorem skipWs_colon (cs : List Char) : skipWs (':' :: cs) = ':' :: cs :=
  skipWs_cons_not cs (by decide)

@[simp] theorem skipWs_comma (cs : List Char) : skipWs (',' :: cs) = ',' :: cs :=
  skipWs_cons_not cs (by decide)

@[simp] theorem skipWs_rbracket (cs : List Char) : skipWs (']' :: cs) = ']' :: cs :=
  skipWs_cons_not cs (by decide)

@[simp] theorem skipWs_obrace (cs : List Char) : skipWs (obraceChar :: cs) = obraceChar :: cs :=
  skipWs_cons_not cs (by decide)

@[simp] theorem skipWs_cbrace (cs : List Char) : skipWs (cbraceChar :: cs) = cbraceChar :: cs :=
  skipWs_cons_not cs (by decide)

@[simp] theorem skipWs_nil : skipWs [] = [] := rfl

theorem hexVal_hexDigitChar : ∀ k, k < 16 → hexVal (hexDigitChar k) = some k := by
  decide

theorem hex4Val_digits (n : Nat) (h : n < 65536) :
    hex4Val (hexDigitChar (n / 4096 % 16)) (hexDigitChar (n / 256 % 16))
      (hexDigitChar (n / 16 % 16)) (hexDigitChar (n % 16)) = some n := by
  have h1 := hexVal_hexDigitChar (n / 4096 % 16) (Nat.mod_lt _ (by norm_num))
  have h2 := hexVal_hexDigitChar (n / 256 % 16) (Nat.mod_lt _ (by norm_num))
  have h3 := hexVal_hexDigitChar (n / 16 % 16) (Nat.mod_lt _ (by norm_num))
  have h4 := hexVal_hexDigitChar (n % 16) (Nat.mod_lt _ (by norm_num))
  simp [hex4Val, h1, h2, h3, h4]
  omega

theorem char_toNat_valid (c : Char) :
    c.toNat < 55296 ∨ (57343 < c.toNat ∧ c.toNat < 1114112) := c.valid

theorem hex4_cons (n : Nat) (tail : List Char) :
    hex4 n ++ tail =
      hexDigitChar (n / 4096 % 16) :: hexDigitChar (n / 256 % 16)
        :: hexDigitChar (n / 16 % 16) :: hexDigitChar (n % 16) :: tail := by
  simp [hex4]

theorem decodeEscape_u (n : Nat) (hn : n < 65536) (hlo : ¬ (55296 ≤ n ∧ n ≤ 56319))
    (hhi : ¬ (56320 ≤ n ∧ n ≤ 57343)) (tail : List Char) :
    decodeEscape ('u' :: (hex4 n ++ tail)) = some (Char.ofNat n, tail) := by
  rw [hex4_cons]
  simp [decodeEscape, hex4Val_digits n hn, hlo, hhi]

theorem decodeEscape_pair (v : Nat) (hv : v < 1048576) (tail : List Char) :
    decodeEscape
        ('u' :: (hex4 (55296 + v / 1024)
          ++ ('\\' :: 'u' :: (hex4 (56320 + v % 1024) ++ tail)))) =
      some (Char.ofNat (65536 + v), tail) := by
  have hdiv : v / 1024 < 1024 := Nat.div_lt_of_lt_mul (by omega)
  have hmod : v % 1024 < 1024 := Nat.mod_lt _ (by norm_num)
  rw [hex4_cons, hex4_cons]
  have hhi : 55296 + v / 1024 < 65536 := by omega
  have hlo : 56320 + v % 1024 < 65536 := by omega
  have hhir : 55296 ≤ 55296 + v / 1024 ∧ 55296 + v / 1024 ≤ 56319 := by omega
  have hlor : 56320 ≤ 56320 + v % 1024 ∧ 56320 + v % 1024 ≤ 57343 := by omega
  simp [decodeEscape, hex4Val_digits _ hhi, hex4Val_digits _ hlo, hhir, hlor]
  congr 1
  omega

theorem pyEscapeChar_length_pos (c : Char) : 1 ≤ (pyEscapeChar c).length := by
  unfold pyEscapeChar
  repeat' split
  all_goals simp [hex4]

theorem pyEscapeList_length_ge (s : List Char) : s.length ≤ (pyEscapeList s).length := by
  induction s with
  | nil => simp [pyEscapeList]
  | cons c cs ih =>
    have := pyEscapeChar_length_pos c
    simp only [pyEscapeList, List.length_append, List.length_cons]
    omega

theorem parseStringBody_escapeChar (c : Char) (fuel : Nat) (tail : List Char) :
    parseStringBody (fuel + 1) (pyEscapeChar c ++ tail) =
      (parseStringBody fuel tail).map (fun p => (c :: p.1, p.2)) := by
  by_cases h1 : c = '"'
  · subst h1
    simp [pyEscapeChar, parseStringBody, decodeEscape, unescapeSimple]
  by_cases h2 : c = '\\'
  · subst h2
    simp [pyEscapeChar, parseStringBody, decodeEscape, unescapeSimple]
  by_cases h3 : c = '\x08'
  · subst h3
    simp [pyEscapeChar, parseStringBody, decodeEscape, unescapeSimple]
  by_cases h4 : c = '\x0c'
  · subst h4
    simp [pyEscapeChar, parseStringBody, decodeEscape, unescapeSimple]
  by_cases h5 : c = '\n'
  · subst h5
    simp [pyEscapeChar, parseStringBody, decodeEscape, unescapeSimple]
  by_cases h6 : c = '\r'
  · subst h6
    simp [pyEscapeChar, parseStringBody, decodeEscape, unescapeSimple]
  by_cases h7 : c = '\t'
  · subst h7
    simp [pyEscapeChar, parseStringBody, decodeEscape, unescapeSimple]
  by_cases h8 : c.toNat < 32
  · rw [pyEscapeChar, if_neg h1, if_neg h2, if_neg h3, if_neg h4, if_neg h5, if_neg h6,
      if_neg h7, if_pos h8]
    have hu := decodeEscape_u c.toNat (by omega) (by omega) (by omega) tail
    simp [parseStringBody, List.cons_append, hu, Char.ofNat_toNat]
  by_cases h9 : c.toNat < 127
  · rw [pyEscapeChar, if_neg h1, if_neg h2, if_neg h3, if_neg h4, if_neg h5, if_neg h6,
      if_neg h7, if_neg h8, if_pos h9]
    rw [List.singleton_append, parseStringBody, if_neg h1, if_neg h2, if_neg h8]
  by_cases h10 : c.toNat < 65536
  · have hno : ¬ (55296 ≤ c.toNat ∧ c.toNat ≤ 56319) := by
      rcases char_toNat_valid c with hv | hv <;> omega
    have hno2 : ¬ (56320 ≤ c.toNat ∧ c.toNat ≤ 57343) := by
      rcases char_toNat_valid c with hv | hv <;> omega
    rw [pyEscapeChar, if_neg h1, if_neg h2, if_neg h3, if_neg h4, if_neg h5, if_neg h6,
      if_neg h7, if_neg h8, if_neg h9, if_pos h10]
    have hu := decodeEscape_u c.toNat h10 hno hno2 tail
    simp [parseStringBody, List.cons_append, hu, Char.ofNat_toNat]
  · have hvr : c.toNat < 1114112 := by
      rcases char_toNat_valid c with hv | hv <;> omega
    have hvlt : c.toNat - 65536 < 1048576 := by omega
    have hp := decodeEscape_pair (c.toNat - 65536) hvlt tail
    have he : 65536 + (c.toNat - 65536) = c.toNat := by omega
    rw [he] at hp
    rw [pyEscapeChar, if_neg h1, if_neg h2, if_neg h3, if_neg h4, if_neg h5, if_neg h6,
      if_neg h7, if_neg h8, if_neg h9, if_neg h10]
    simp only [List.cons_append, List.append_assoc]
    rw [parseStringBody, if_neg (show ¬ ('\\' : Char) = '"' by decide),
      if_pos (show ('\\' : Char) = '\\' from rfl), hp, Char.ofNat_toNat]

theorem parseStringBody_escapeList (s : List Char) :
    ∀ (fuel : Nat) (rest : List Char), s.length + 1 ≤ fuel →
      parseStringBody fuel (pyEscapeList s ++ ('"' :: rest)) = some (s, rest) := by
  induction s with
  | nil =>
    intro fuel rest hf
    obtain ⟨f, rfl⟩ : ∃ f, fuel = f + 1 := ⟨fuel - 1, by omega⟩
    simp [pyEscapeList, parseStringBody]
  | cons c cs ih =>
    intro fuel rest hf
    obtain ⟨f, rfl⟩ : ∃ f, fuel = f + 1 := ⟨fuel - 1, by omega⟩
    rw [pyEscapeList, List.append_assoc, parseStringBody_escapeChar,
      ih f rest (by simpa using Nat.lt_succ_iff.mp hf)]
    rfl

theorem parseJsonString_dump (s : String) (rest : List Char) :
    parseJsonString (dumpJsonString s ++ rest) = some (s, rest) := by
  rw [dumpJsonString]
  rw [List.cons_append, parseJsonString, if_pos rfl]
  rw [List.append_assoc, List.singleton_append]
  rw [parseStringBody_escapeList s.data _ rest
    (by
      have := pyEscapeList_length_ge s.data
      simp only [List.length_append, List.length_cons]
      omega)]
  rfl

@[simp] theorem skipWs_dumpJsonString (s : String) (x : List Char) :
    skipWs (dumpJsonString s ++ x) = dumpJsonString s ++ x := by
  rw [dumpJsonString, List.cons_append, skipWs_quote]

theorem parseKey_name (y : List Char) :
    parseJsonString ('"' :: 'n' :: 'a' :: 'm' :: 'e' :: '"' :: y) = some ("name", y) := by
  have h := parseJsonString_dump "name" y
  rw [show dumpJsonString "name" ++ y = '"' :: 'n' :: 'a' :: 'm' :: 'e' :: '"' :: y from rfl] at h
  exact h

theorem parseKey_url (y : List Char) :
    parseJsonString ('"' :: 'u' :: 'r' :: 'l' :: '"' :: y) = some ("url", y) := by
  have h := parseJsonString_dump "url" y
  rw [show dumpJsonString "url" ++ y = '"' :: 'u' :: 'r' :: 'l' :: '"' :: y from rfl] at h
  exact h

theorem parseKey_id (y : List Char) :
    parseJsonString ('"' :: 'i' :: 'd' :: '"' :: y) = some ("id", y) := by
  have h := parseJsonString_dump "id" y
  rw [show dumpJsonString "id" ++ y = '"' :: 'i' :: 'd' :: '"' :: y from rfl] at h
  exact h

theorem dumpRecordItem_explode (r : Record) (rest : List Char) :
    dumpRecordItem r ++ rest =
      obraceChar :: '\n' :: ' ' :: ' ' :: ' ' :: ' ' :: ' ' :: ' ' :: ' ' :: ' ' ::
      '"' :: 'n' :: 'a' :: 'm' :: 'e' :: '"' :: ':' :: ' ' ::
      (dumpJsonString r.name ++ (',' :: '\n' :: ' ' :: ' ' :: ' ' :: ' ' :: ' ' :: ' ' :: ' ' :: ' ' ::
      '"' :: 'u' :: 'r' :: 'l' :: '"' :: ':' :: ' ' ::
      (dumpJsonString r.url ++ (',' :: '\n' :: ' ' :: ' ' :: ' ' :: ' ' :: ' ' :: ' ' :: ' ' :: ' ' ::
      '"' :: 'i' :: 'd' :: '"' :: ':' :: ' ' ::
      (dumpJsonString r.id ++ ('\n' :: ' ' :: ' ' :: ' ' :: ' ' :: cbraceChar :: rest)))))) := by
  simp only [dumpRecordItem, List.append_assoc]
  rfl

theorem parseObject_item (r : Record) (f : Nat) (rest : List Char) :
    parseObject (f + 3) (dumpRecordItem r ++ rest) =
      some ([("name", r.name), ("url", r.url), ("id", r.id)], rest) := by
  rw [dumpRecordItem_explode]
  rw [show f + 3 = (f + 1) + 1 + 1 from rfl]
  simp [parseObject, parseMembers, parseKey_name, parseKey_url, parseKey_id,
    parseJsonString_dump,
    show ¬ ('"' : Char) = cbraceChar by decide,
    show ¬ cbraceChar = ',' by decide]

theorem skipWs_item (r : Record) (x : List Char) :
    skipWs (dumpRecordItem r ++ x) = dumpRecordItem r ++ x := by
  rw [dumpRecordItem_explode, skipWs_obrace, ← dumpRecordItem_explode]

theorem parseItems_dump (rs : List Record) :
    ∀ (r : Record) (fuel : Nat) (rest : List Char), rs.length + 3 ≤ fuel →
      parseItems fuel (dumpRecordItem r ++ (dumpRecordsTail rs ++ rest)) =
        some (r :: rs, rest) := by
  induction rs with
  | nil =>
    intro r fuel rest hf
    obtain ⟨g, rfl⟩ : ∃ g, fuel = g + 1 := ⟨fuel - 1, by omega⟩
    rw [parseItems]
    rw [show g + 1 = (g - 2) + 3 by omega]
    rw [parseObject_item]
    simp [recordOfMembers, dumpRecordsTail, List.cons_append,
      show ("\n]" : String).data = ['\n', ']'] from rfl,
      show ¬ (']' : Char) = ',' by decide]
  | cons r2 rs2 ih =>
    intro r fuel rest hf
    obtain ⟨g, rfl⟩ : ∃ g, fuel = g + 1 := ⟨fuel - 1, by omega⟩
    rw [parseItems]
    rw [show g + 1 = (g - 2) + 3 by omega]
    rw [parseObject_item]
    have hg : rs2.length + 3 ≤ g := by
      simp only [List.length_cons] at hf
      omega
    simp [recordOfMembers, dumpRecordsTail, List.cons_append, List.append_assoc,
      skipWs_item, show (",\n    " : String).data = [',', '\n', ' ', ' ', ' ', ' '] from rfl,
      ih r2 g rest hg]

@[simp] theorem skipWs_lbracket (cs : List Char) : skipWs ('[' :: cs) = '[' :: cs :=
  skipWs_cons_not cs (by decide)

theorem dumpRecordsTail_length_ge (rs : List Record) :
    rs.length ≤ (dumpRecordsTail rs).length := by
  induction rs with
  | nil => simp [dumpRecordsTail]
  | cons r rs ih =>
    simp only [dumpRecordsTail, List.length_append, List.length_cons]
    omega

theorem py_json_round_trip (l : List Record) :
    py_json_load_records (py_json_dump_records l) = some l := by
  cases l with
  | nil => rfl
  | cons r rs =>
    rw [py_json_dump_records, List.append_assoc]
    rw [show ("[\n    " : String).data = ['[', '\n', ' ', ' ', ' ', ' '] from rfl]
    simp only [List.cons_append, List.nil_append]
    rw [dumpRecordItem_explode r (dumpRecordsTail rs)]
    rw [py_json_load_records]
    simp only [skipWs_lbracket, skipWs_newline, skipWs_space, skipWs_obrace]
    simp only [if_true]
    rw [if_neg (show ¬ obraceChar = ']' by decide)]
    rw [← dumpRecordItem_explode r (dumpRecordsTail rs)]
    rw [show dumpRecordsTail rs = dumpRecordsTail rs ++ [] from (List.append_nil _).symm]
    rw [parseItems_dump]
    · rfl
    · have h1 := dumpRecordsTail_length_ge rs
      simp only [List.length_cons, List.length_append, List.append_nil, List.length_nil]
      omega

/-! ## Shared facts about `add_indicator` runs -/

theorem add_indicator_invalid_url (env : Env) (file : List Record)
    (h : py_startswith env.enteredText "https://www.tradingview.com/script" = false) :
    (add_indicator env file).1 = file
    ∧ (∀ l, Effect.writeListFile l ∉ (add_indicator env file).2)
    ∧ Effect.createWebdriverCall true ∈ (add_indicator env file).2 := by
  cases hw : env.webdriverResult with
  | none =>
    simp [add_indicator, ask_for_url, add_indicator_with_url, create_browser, hw]
  | some wd =>
    cases hc : pyTruthyStr env.savedSessionId <;>
      simp [add_indicator, ask_for_url, add_indicator_with_url, create_browser, hw, hc, h]

/-! ## Claims -/

/-- C1, counterexample.  The claim says a URL without the required prefix
triggers no browser creation; but `add_indicator` calls `create_browser`
before it checks the prefix, so for the non-matching URL
`"http://example.com/script"` (with browser creation succeeding) the trace
does contain a browser-creation call. -/
theorem claim_C1_counterexample :
    py_startswith "http://example.com/script" "https://www.tradingview.com/script" = false
    ∧ Effect.createWebdriverCall true ∈
        (add_indicator
          { enteredText := "http://example.com/script", webdriverResult := some ⟨0⟩,
            savedSessionId := none, nameElementText := none, idElementAttr := none }
          []).2 := by
  constructor
  · decide
  · decide

/-- C1, amended: for every user-entered URL that does not start with
`"https://www.tradingview.com/script"`, `add_indicator` leaves the persisted
indicator list unchanged and never calls `update_json_list` (no list-file
write occurs); however a browser-creation call is still made before the
prefix check. -/
theorem claim_C1_amended (env : Env) (file : List Record)
    (h : py_startswith env.enteredText "https://www.tradingview.com/script" = false) :
    (add_indicator env file).1 = file
    ∧ (∀ l, Effect.writeListFile l ∉ (add_indicator env file).2)
    ∧ Effect.createWebdriverCall true ∈ (add_indicator env file).2 :=
  add_indicator_invalid_url env file h

/-- C1, witness for the amended theorem at a concrete invalid URL. -/
theorem claim_C1_witness :
    (add_indicator
      { enteredText := "http://example.com/script", webdriverResult := some ⟨0⟩,
        savedSessionId := none, nameElementText := none, idElementAttr := none }
      [{ name := "a", url := "b", id := "c" }]).1 = [{ name := "a", url := "b", id := "c" }]
    ∧ (∀ l, Effect.writeListFile l ∉
        (add_indicator
          { enteredText := "http://example.com/script", webdriverResult := some ⟨0⟩,
            savedSessionId := none, nameElementText := none, idElementAttr := none }
          [{ name := "a", url := "b", id := "c" }]).2)
    ∧ Effect.createWebdriverCall true ∈
        (add_indicator
          { enteredText := "http://example.com/script", webdriverResult := some ⟨0⟩,
            savedSessionId := none, nameElementText := none, idElementAttr := none }
          [{ name := "a", url := "b", id := "c" }]).2 :=
  claim_C1_amended _ _ (by decide)

/-- C3, counterexample.  The claim says that on an empty prompt result
`add_indicator` is a silent no-op with no browser created; but the code
only short-circuits on `url is None`, and `ask_for_url` returns `""` (a
`str`), so a browser-creation call still happens. -/
theorem claim_C3_counterexample :
    Effect.createWebdriverCall true ∈
      (add_indicator
        { enteredText := "", webdriverResult := some ⟨0⟩, savedSessionId := none,
          nameElementText := none, idElementAttr := none } []).2 := by
  decide

/-- C3, amended: when the prompt dialog returns the empty string,
`add_indicator` appends nothing — the list file is unchanged and
`update_json_list` is never called (the empty URL later fails the prefix
check) — but it is not a no-op: a browser-creation call still occurs (and
the browser-failure error dialog can still appear) before any URL check. -/
theorem claim_C3_amended (env : Env) (file : List Record) (h : env.enteredText = "") :
    (add_indicator env file).1 = file
    ∧ (∀ l, Effect.writeListFile l ∉ (add_indicator env file).2)
    ∧ Effect.createWebdriverCall true ∈ (add_indicator env file).2 :=
  add_indicator_invalid_url env file (by rw [h]; decide)

/-- C3, witness for the amended theorem at the empty prompt result. -/
theorem claim_C3_witness :
    (add_indicator
      { enteredText := "", webdriverResult := some ⟨0⟩, savedSessionId := none,
        nameElementText := none, idElementAttr := none } []).1 = []
    ∧ (∀ l, Effect.writeListFile l ∉
        (add_indicator
          { enteredText := "", webdriverResult := some ⟨0⟩, savedSessionId := none,
            nameElementText := none, idElementAttr := none } []).2)
    ∧ Effect.createWebdriverCall true ∈
        (add_indicator
          { enteredText := "", webdriverResult := some ⟨0⟩, savedSessionId := none,
            nameElementText := none, idElementAttr := none } []).2 :=
  claim_C3_amended _ _ rfl

theorem writeListFile_not_mem_cookieEffects (l : List Record) (b : Bool) (ck : Cookie) :
    Effect.writeListFile l ∉ (if b then [Effect.addCookie ck] else []) := by
  cases b <;> simp

theorem add_indicator_run (env : Env) (file : List Record) :
    ((add_indicator env file).1 = file
      ∧ (∀ l, Effect.writeListFile l ∉ (add_indicator env file).2))
    ∨ (∃ n i, (get_pine_name env).1 = some n ∧ (get_pine_id env).1 = some i
        ∧ n ≠ "" ∧ i ≠ ""
        ∧ py_startswith env.enteredText "https://www.tradingview.com/script" = true
        ∧ (add_indicator env file).1 = file ++ [{ name := n, url := env.enteredText, id := i }]
        ∧ (∀ l, Effect.writeListFile l ∈ (add_indicator env file).2 ↔
            l = file ++ [{ name := n, url := env.enteredText, id := i }])) := by
  obtain ⟨txt, wd, sid, nEl, idEl⟩ := env
  cases wd with
  | none =>
    left
    simp [add_indicator, ask_for_url, add_indicator_with_url, create_browser]
  | some w =>
    by_cases hvu : py_startswith txt "https://www.tradingview.com/script"
    · cases nEl with
      | none =>
        left
        rcases idEl with _ | a <;>
          simp [add_indicator, ask_for_url, add_indicator_with_url, create_browser,
            get_pine_info, get_pine_name, get_pine_id, wait_pine_name, wait_pine_id, hvu,
            writeListFile_not_mem_cookieEffects]
      | some n =>
        rcases idEl with _ | a
        · left
          simp [add_indicator, ask_for_url, add_indicator_with_url, create_browser,
            get_pine_info, get_pine_name, get_pine_id, wait_pine_name, wait_pine_id, hvu,
            writeListFile_not_mem_cookieEffects]
        · rcases a with _ | i
          · left
            simp [add_indicator, ask_for_url, add_indicator_with_url, create_browser,
              get_pine_info, get_pine_name, get_pine_id, wait_pine_name, wait_pine_id, hvu,
              writeListFile_not_mem_cookieEffects]
          · by_cases hn : n = ""
            · left
              simp [add_indicator, ask_for_url, add_indicator_with_url, create_browser,
                get_pine_info, get_pine_name, get_pine_id, wait_pine_name, wait_pine_id, hvu,
                hn, writeListFile_not_mem_cookieEffects]
            · by_cases hi : i = ""
              · left
                simp [add_indicator, ask_for_url, add_indicator_with_url, create_browser,
                  get_pine_info, get_pine_name, get_pine_id, wait_pine_name, wait_pine_id,
                  hvu, hi, writeListFile_not_mem_cookieEffects]
              · right
                refine ⟨n, i, rfl, rfl, hn, hi, hvu, ?_, ?_⟩
                · simp [add_indicator, ask_for_url, add_indicator_with_url, create_browser,
                    get_pine_info, get_pine_name, get_pine_id, wait_pine_name, wait_pine_id,
                    hvu, hn, hi, update_json_list]
                · intro l
                  simp [add_indicator, ask_for_url, add_indicator_with_url, create_browser,
                    get_pine_info, get_pine_name, get_pine_id, wait_pine_name, wait_pine_id,
                    hvu, hn, hi, update_json_list, writeListFile_not_mem_cookieEffects]
    · left
      cases hc : pyTruthyStr sid <;>
        simp [add_indicator, ask_for_url, add_indicator_with_url, create_browser, hvu, hc]

/-- C2: for every prior array of records and every new record,
`update_json_list` leaves the file holding an array exactly one longer,
with all prior entries unchanged in their original order as its first
elements, and the new entry as its last element. -/
theorem claim_C2_append (data : List Record) (new_entry : Record) :
    (update_json_list data new_entry).1.length = data.length + 1
    ∧ (update_json_list data new_entry).1.take data.length = data
    ∧ (update_json_list data new_entry).1.getLast? = some new_entry := by
  refine ⟨?_, ?_, ?_⟩
  · simp [update_json_list]
  · simp [update_json_list, List.take_left]
  · simp [update_json_list, List.getLast?_concat]

/-- C4: whenever the scrape outcome has an absent (`None`) or empty name or
id, `add_indicator` performs no list-file write and leaves the list
unchanged; and conversely, a list-file write only ever happens when both
name and id were scraped as non-empty strings (and then it appends exactly
the one new record). -/
theorem claim_C4_scrape_guard (env : Env) (file : List Record) :
    ((get_pine_name env).1 = none ∨ (get_pine_name env).1 = some ""
      ∨ (get_pine_id env).1 = none ∨ (get_pine_id env).1 = some "" →
      (add_indicator env file).1 = file
      ∧ ∀ l, Effect.writeListFile l ∉ (add_indicator env file).2)
    ∧ (∀ l, Effect.writeListFile l ∈ (add_indicator env file).2 →
        ∃ n i, (get_pine_name env).1 = some n ∧ (get_pine_id env).1 = some i
          ∧ n ≠ "" ∧ i ≠ ""
          ∧ l = file ++ [{ name := n, url := env.enteredText, id := i }]) := by
  rcases add_indicator_run env file with ⟨h1, h2⟩ | ⟨n, i, hn, hi, hne, hie, _, _, hw⟩
  · exact ⟨fun _ => ⟨h1, h2⟩, fun l hl => absurd hl (h2 l)⟩
  · constructor
    · intro hbad
      exfalso
      rcases hbad with hb | hb | hb | hb
      · rw [hn] at hb
        exact Option.noConfusion hb
      · rw [hn] at hb
        exact hne (Option.some.inj hb)
      · rw [hi] at hb
        exact Option.noConfusion hb
      · rw [hi] at hb
        exact hie (Option.some.inj hb)
    · intro l hl
      exact ⟨n, i, hn, hi, hne, hie, (hw l).mp hl⟩

/-- C4, witness: a run whose id wait timed out appends nothing. -/
theorem claim_C4_witness :
    (add_indicator
      { enteredText := "https://www.tradingview.com/script/abc", webdriverResult := some ⟨0⟩,
        savedSessionId := none, nameElementText := some "RSI", idElementAttr := none }
      []).1 = []
    ∧ ∀ l, Effect.writeListFile l ∉
        (add_indicator
          { enteredText := "https://www.tradingview.com/script/abc", webdriverResult := some ⟨0⟩,
            savedSessionId := none, nameElementText := some "RSI", idElementAttr := none }
          []).2 :=
  (claim_C4_scrape_guard _ _).1 (by right; right; left; rfl)

/-- C5: the two bounded waits in `get_pine_info` are independent and
non-throwing.  A name-wait timeout yields `None` for the name together with
the logged error `"Unable to find pine name"` while the id result is still
whatever the id wait produces (and symmetrically for the id wait); each
component of the returned pair depends only on its own wait's outcome, and
in every case `get_pine_info` returns the `(name, id)` pair normally —
the name component always equals the name wait's outcome and the id
component the id wait's, never a propagated exception. -/
theorem claim_C5_independent_waits (env : Env) (url : String) :
    (env.nameElementText = none →
      (get_pine_info env url).1.1 = none
      ∧ Effect.logError "Unable to find pine name" ∈ (get_pine_info env url).2)
    ∧ (env.idElementAttr = none →
      (get_pine_info env url).1.2 = none
      ∧ Effect.logError "Unable to find pine ID" ∈ (get_pine_info env url).2)
    ∧ (∀ env2, env2.idElementAttr = env.idElementAttr →
        (get_pine_info env2 url).1.2 = (get_pine_info env url).1.2)
    ∧ (∀ env2, env2.nameElementText = env.nameElementText →
        (get_pine_info env2 url).1.1 = (get_pine_info env url).1.1)
    ∧ (get_pine_info env url).1.1 = env.nameElementText
    ∧ (get_pine_info env url).1.2 = Option.join env.idElementAttr := by
  refine ⟨?_, ?_, ?_, ?_, ?_, ?_⟩
  · intro h
    simp [get_pine_info, get_pine_name, wait_pine_name, h]
  · intro h
    simp [get_pine_info, get_pine_id, wait_pine_id, h]
  · intro env2 h
    cases he : env.idElementAttr <;>
      simp [get_pine_info, get_pine_id, wait_pine_id, h, he]
  · intro env2 h
    cases he : env.nameElementText <;>
      simp [get_pine_info, get_pine_name, wait_pine_name, h, he]
  · cases he : env.nameElementText <;>
      simp [get_pine_info, get_pine_name, wait_pine_name, he]
  · cases he : env.idElementAttr <;>
      simp [get_pine_info, get_pine_id, wait_pine_id, he]

/-- C5, witness: name wait times out while the id wait succeeds. -/
theorem claim_C5_witness :
    ((get_pine_info
        { enteredText := "", webdriverResult := some ⟨0⟩, savedSessionId := none,
          nameElementText := none, idElementAttr := some (some "PUB;x") } "u").1.1 = none
      ∧ Effect.logError "Unable to find pine name" ∈
          (get_pine_info
            { enteredText := "", webdriverResult := some ⟨0⟩, savedSessionId := none,
              nameElementText := none, idElementAttr := some (some "PUB;x") } "u").2)
    ∧ (get_pine_info
        { enteredText := "", webdriverResult := some ⟨0⟩, savedSessionId := none,
          nameElementText := none, idElementAttr := some (some "PUB;x") } "u").1.2
        = Option.join (some (some "PUB;x")) :=
  ⟨(claim_C5_independent_waits _ "u").1 rfl,
    (claim_C5_independent_waits _ "u").2.2.2.2.2⟩

/-- C6: when browser creation by the login collaborator fails,
`create_browser` shows the modal error dialog and returns `None` with no
navigation and no cookie; `add_indicator` then stops: its whole trace is
the creation attempt plus the error dialog (so nothing was scraped), and
the list file is unchanged with no write. -/
theorem claim_C6_browser_failure (env : Env) (file : List Record)
    (h : env.webdriverResult = none) :
    create_browser env =
      (none,
        [Effect.createWebdriverCall true,
         Effect.showError "ERROR"
           "ERROR: Unable to create Chrome Browser. \n\nPlease make sure that you have Google Chrome installed."])
    ∧ (add_indicator env file).1 = file
    ∧ (add_indicator env file).2 =
        [Effect.createWebdriverCall true,
         Effect.showError "ERROR"
           "ERROR: Unable to create Chrome Browser. \n\nPlease make sure that you have Google Chrome installed."]
    ∧ (∀ u, Effect.navigate u ∉ (add_indicator env file).2)
    ∧ (∀ c, Effect.addCookie c ∉ (add_indicator env file).2)
    ∧ (∀ l, Effect.writeListFile l ∉ (add_indicator env file).2) := by
  refine ⟨?_, ?_, ?_, ?_, ?_, ?_⟩ <;>
    simp [add_indicator, ask_for_url, add_indicator_with_url, create_browser, h]

/-- C6, witness at a concrete failing environment. -/
theorem claim_C6_witness :
    (add_indicator
      { enteredText := "https://www.tradingview.com/script/abc", webdriverResult := none,
        savedSessionId := none, nameElementText := none, idElementAttr := none }
      [{ name := "a", url := "b", id := "c" }]).1 = [{ name := "a", url := "b", id := "c" }]
    ∧ (∀ u, Effect.navigate u ∉
        (add_indicator
          { enteredText := "https://www.tradingview.com/script/abc", webdriverResult := none,
            savedSessionId := none, nameElementText := none, idElementAttr := none }
          [{ name := "a", url := "b", id := "c" }]).2)
    ∧ (∀ l, Effect.writeListFile l ∉
        (add_indicator
          { enteredText := "https://www.tradingview.com/script/abc", webdriverResult := none,
            savedSessionId := none, nameElementText := none, idElementAttr := none }
          [{ name := "a", url := "b", id := "c" }]).2) :=
  ⟨(claim_C6_browser_failure _ _ rfl).2.1,
    (claim_C6_browser_failure _ _ rfl).2.2.2.1,
    (claim_C6_browser_failure _ _ rfl).2.2.2.2.2⟩

/-- C7: when browser creation succeeds, `create_browser` navigates to the
fixed published-scripts URL and returns the live driver; if a saved session
token exists (a non-empty string, per Python truthiness) the cookie
`{name: "sessionid", value: token, domain: ".tradingview.com", path: "/"}`
is attached, and if no saved token exists no cookie is attached. -/
theorem claim_C7_browser_success (env : Env) (wd : WebDriver)
    (h : env.webdriverResult = some wd) :
    (create_browser env).1 = some wd
    ∧ Effect.navigate "https://www.tradingview.com/u/#published-scripts"
        ∈ (create_browser env).2
    ∧ (∀ t, env.savedSessionId = some t → t ≠ "" →
        Effect.addCookie
          { name := "sessionid", value := t, domain := ".tradingview.com", path := "/" }
          ∈ (create_browser env).2)
    ∧ (env.savedSessionId = none → ∀ c, Effect.addCookie c ∉ (create_browser env).2) := by
  refine ⟨?_, ?_, ?_, ?_⟩
  · simp [create_browser, h]
  · cases hc : pyTruthyStr env.savedSessionId <;> simp [create_browser, h, hc]
  · intro t ht hne
    simp [create_browser, h, ht, pyTruthyStr, hne]
  · intro hs c
    simp [create_browser, h, hs, pyTruthyStr]

/-- C7, witness: success with a saved token, and success with no token. -/
theorem claim_C7_witness :
    ((create_browser
        { enteredText := "", webdriverResult := some ⟨7⟩, savedSessionId := some "tok",
          nameElementText := none, idElementAttr := none }).1 = some ⟨7⟩
      ∧ Effect.addCookie
          { name := "sessionid", value := "tok", domain := ".tradingview.com", path := "/" }
          ∈ (create_browser
              { enteredText := "", webdriverResult := some ⟨7⟩, savedSessionId := some "tok",
                nameElementText := none, idElementAttr := none }).2)
    ∧ (∀ c, Effect.addCookie c ∉
        (create_browser
          { enteredText := "", webdriverResult := some ⟨7⟩, savedSessionId := none,
            nameElementText := none, idElementAttr := none }).2) :=
  ⟨⟨(claim_C7_browser_success _ _ rfl).1,
      (claim_C7_browser_success _ _ rfl).2.2.1 "tok" rfl (by decide)⟩,
    (claim_C7_browser_success _ _ rfl).2.2.2 rfl⟩

/-- C8: end-to-end scenario — list file `[]`, URL
`https://www.tradingview.com/script/abc123`, scraped name `"RSI Pro"` and
id `"PUB;xyz"` — `add_indicator` rewrites the file to the one-element array
holding exactly that record. -/
theorem claim_C8_scenario :
    (add_indicator
      { enteredText := "https://www.tradingview.com/script/abc123",
        webdriverResult := some ⟨0⟩, savedSessionId := none,
        nameElementText := some "RSI Pro", idElementAttr := some (some "PUB;xyz") }
      []).1 =
      [{ name := "RSI Pro", url := "https://www.tradingview.com/script/abc123",
         id := "PUB;xyz" }]
    ∧ Effect.writeListFile
        [{ name := "RSI Pro", url := "https://www.tradingview.com/script/abc123",
           id := "PUB;xyz" }]
        ∈ (add_indicator
            { enteredText := "https://www.tradingview.com/script/abc123",
              webdriverResult := some ⟨0⟩, savedSessionId := none,
              nameElementText := some "RSI Pro", idElementAttr := some (some "PUB;xyz") }
            []).2 := by
  constructor
  · decide
  · decide

/-- C9: round-trip — serializing any sequence of records with the List
Updater's writer (`json.dump` with 4-space indentation, modelled by
`py_json_dump_records`) and parsing the file back (`json.load`, modelled by
`py_json_load_records`) yields the identical sequence of records. -/
theorem claim_C9_round_trip (l : List Record) :
    py_json_load_records (py_json_dump_records l) = some l :=
  py_json_round_trip l

/-- C10: `ask_for_url` always returns a string — the text field's contents,
the empty string when nothing was typed — never an absent value; hence the
`url is None` abort branch in `add_indicator` is unreachable: every run
proceeds into the rest of the body with the entered text. -/
theorem claim_C10_url_never_none (env : Env) :
    ask_for_url env = some env.enteredText
    ∧ ∀ file, add_indicator env file = add_indicator_with_url env file env.enteredText :=
  ⟨rfl, fun _ => rfl⟩
